import Mathlib

/-!
# Verification of the `opencv-capture` recorder core

Shallow embedding of `media_utils/recorder.py` (class `Recorder`): the
letterbox frame transform `_resize_and_pad_frame`, the construction of the
per-session queues and audio worker threads in `__init__` / `start`, and the
output-assembly step `_process_output` (validity checks, ffmpeg command
construction, subprocess result handling, temporary-file cleanup).

Modelling conventions:
* Python real arithmetic (`w / h`, `int(...)` on non-negative values) is
  modelled exactly over `ℚ` with `Nat.floor`; machine/float rounding is
  abstracted to exact rationals.
* An image is its dimension pair together with a pixel map; `cv2.resize` is
  modelled dimension-exactly (the interpolated content, a capture
  collaborator, is modelled by coordinate scaling), and `cv2.copyMakeBorder`
  is modelled exactly.
* The filesystem is a partial map from paths to file sizes; `os.path.exists`,
  `os.path.getsize` and `os.remove` act on it.
* The external encoder (`subprocess.run`) is a parameter mapping the argument
  list to an exit code with captured stderr, or an execution error
  (`FileNotFoundError` / other exception).
-/

namespace OpencvCapture

set_option maxRecDepth 40000

/-- A BGR pixel value. -/
abbrev Pix := ℕ × ℕ × ℕ

/-- The constant black fill `[0, 0, 0]` used by the letterbox padding. -/
def black : Pix := (0, 0, 0)

/-- A video frame: width, height, and a pixel map (row `y`, column `x`). -/
structure Frame where
  w : ℕ
  h : ℕ
  px : ℕ → ℕ → Pix

/-- Model of `cv2.resize(frame, (nw, nh))`: the output has exactly the
requested dimensions; content is modelled by coordinate scaling (the
interpolation kernel itself is an external collaborator). -/
def cvResize (f : Frame) (nw nh : ℕ) : Frame :=
  { w := nw, h := nh, px := fun y x => f.px (y * f.h / nh) (x * f.w / nw) }

/-- Model of `cv2.copyMakeBorder(f, top, bottom, left, right, BORDER_CONSTANT,
value := v)`: pads the frame with `v` on the four sides. -/
def copyMakeBorder (f : Frame) (top bottom left right : ℕ) (v : Pix) : Frame :=
  { w := left + f.w + right
    h := top + f.h + bottom
    px := fun y x =>
      if y < top ∨ top + f.h ≤ y ∨ x < left ∨ left + f.w ≤ x then v
      else f.px (y - top) (x - left) }

/-- `Recorder._resize_and_pad_frame(frame, target_size, shorts_format)`,
lines 309-363.  `target_size` is `(width, height)`.  Python's
`int(x)` on the non-negative quantities involved is `Nat.floor`, and the
float aspect ratios are modelled by exact rationals. -/
def resize_and_pad_frame (frame : Frame) (target_size : ℕ × ℕ)
    (shorts_format : Bool) : Frame :=
  let output_height := target_size.2
  let output_width := target_size.1
  if shorts_format then
    let h := frame.h
    let w := frame.w
    let target_h := output_height
    let target_w := output_width
    let source_aspect : ℚ := (w : ℚ) / (h : ℚ)
    let target_aspect : ℚ := (target_w : ℚ) / (target_h : ℚ)
    if source_aspect > target_aspect then
      let new_w := target_w
      let new_h := Nat.floor ((new_w : ℚ) / source_aspect)
      let resized := cvResize frame new_w new_h
      let pad_v := target_h - new_h
      let pad_top := pad_v / 2
      let pad_bottom := pad_v - pad_top
      copyMakeBorder resized pad_top pad_bottom 0 0 black
    else if source_aspect < target_aspect then
      let new_h := target_h
      let new_w := Nat.floor ((new_h : ℚ) * source_aspect)
      let resized := cvResize frame new_w new_h
      let pad_h := target_w - new_w
      let pad_left := pad_h / 2
      let pad_right := pad_h - pad_left
      copyMakeBorder resized 0 0 pad_left pad_right black
    else
      cvResize frame target_w target_h
  else
    if frame.w ≠ output_width ∨ frame.h ≠ output_height then
      cvResize frame output_width output_height
    else
      frame

/-! ## Arithmetic bridge lemmas for the letterbox geometry -/

/-- `int(new_w / (w / h))` computed over `ℚ` is natural-number division
`new_w * h / w`. -/
lemma floor_div_aspect (a w h : ℕ) :
    Nat.floor ((a : ℚ) / ((w : ℚ) / (h : ℚ))) = a * h / w := by
  rw [div_div_eq_mul_div]
  have : ((a : ℚ) * (h : ℚ)) = ((a * h : ℕ) : ℚ) := by push_cast; ring
  rw [this, Nat.floor_div_nat, Nat.floor_natCast]

/-- `int(new_h * (w / h))` computed over `ℚ` is natural-number division
`new_h * w / h`. -/
lemma floor_mul_aspect (a w h : ℕ) :
    Nat.floor ((a : ℚ) * ((w : ℚ) / (h : ℚ))) = a * w / h := by
  rw [mul_div_assoc']
  have : ((a : ℚ) * (w : ℚ)) = ((a * w : ℕ) : ℚ) := by push_cast; ring
  rw [this, Nat.floor_div_nat, Nat.floor_natCast]

/-- The source's float comparison `w / h > tw / th` cross-multiplied. -/
lemma aspect_gt_iff (w h tw th : ℕ) (hh : 0 < h) (hth : 0 < th) :
    ((w : ℚ) / (h : ℚ) > (tw : ℚ) / (th : ℚ)) ↔ tw * h < w * th := by
  rw [gt_iff_lt, div_lt_div_iff₀ (by exact_mod_cast hth) (by exact_mod_cast hh)]
  constructor
  · intro hq
    exact_mod_cast hq
  · intro hn
    exact_mod_cast hn

/-- The source's float comparison `w / h < tw / th` cross-multiplied. -/
lemma aspect_lt_iff (w h tw th : ℕ) (hh : 0 < h) (hth : 0 < th) :
    ((w : ℚ) / (h : ℚ) < (tw : ℚ) / (th : ℚ)) ↔ w * th < tw * h := by
  rw [div_lt_div_iff₀ (by exact_mod_cast hh) (by exact_mod_cast hth)]
  constructor
  · intro hq
    exact_mod_cast hq
  · intro hn
    exact_mod_cast hn

/-! ## Branch characterisations of the letterbox transform -/

/-- Wide-source branch (`source_aspect > target_aspect`): scale the width to
`tw`, derive the height by integer truncation, pad top/bottom. -/
lemma resize_and_pad_wide (f : Frame) (tw th : ℕ) (hh : 0 < f.h) (hth : 0 < th)
    (hcase : tw * f.h < f.w * th) :
    resize_and_pad_frame f (tw, th) true =
      copyMakeBorder (cvResize f tw (tw * f.h / f.w)) ((th - tw * f.h / f.w) / 2)
        (th - tw * f.h / f.w - (th - tw * f.h / f.w) / 2) 0 0 black := by
  have hgt : ((f.w : ℚ) / (f.h : ℚ) > (tw : ℚ) / (th : ℚ)) :=
    (aspect_gt_iff f.w f.h tw th hh hth).mpr hcase
  simp only [resize_and_pad_frame, if_pos hgt, floor_div_aspect, if_true]

/-- Tall-source branch (`source_aspect < target_aspect`): scale the height to
`th`, derive the width by integer truncation, pad left/right. -/
lemma resize_and_pad_tall (f : Frame) (tw th : ℕ) (hh : 0 < f.h) (hth : 0 < th)
    (hcase : f.w * th < tw * f.h) :
    resize_and_pad_frame f (tw, th) true =
      copyMakeBorder (cvResize f (th * f.w / f.h) th) 0 0 ((tw - th * f.w / f.h) / 2)
        (tw - th * f.w / f.h - (tw - th * f.w / f.h) / 2) black := by
  have hlt : ((f.w : ℚ) / (f.h : ℚ) < (tw : ℚ) / (th : ℚ)) :=
    (aspect_lt_iff f.w f.h tw th hh hth).mpr hcase
  have hngt : ¬ ((f.w : ℚ) / (f.h : ℚ) > (tw : ℚ) / (th : ℚ)) := not_lt_of_lt hlt
  simp only [resize_and_pad_frame, if_neg hngt, if_pos hlt, floor_mul_aspect, if_true]

/-- Equal-aspect branch: a direct resize to `(tw, th)`, no padding call. -/
lemma resize_and_pad_equal (f : Frame) (tw th : ℕ)
    (hcase : (f.w : ℚ) / (f.h : ℚ) = (tw : ℚ) / (th : ℚ)) :
    resize_and_pad_frame f (tw, th) true = cvResize f tw th := by
  have hngt : ¬ ((f.w : ℚ) / (f.h : ℚ) > (tw : ℚ) / (th : ℚ)) := by
    rw [hcase]; exact lt_irrefl _
  have hnlt : ¬ ((f.w : ℚ) / (f.h : ℚ) < (tw : ℚ) / (th : ℚ)) := by
    rw [hcase]; exact lt_irrefl _
  simp only [resize_and_pad_frame, if_neg hngt, if_neg hnlt, if_true]

/-- In the wide branch the derived height stays strictly below the target
height, so the Python padding amount `target_h - new_h` is positive. -/
lemma wide_derived_lt (f : Frame) (tw th : ℕ) (hw : 0 < f.w)
    (hcase : tw * f.h < f.w * th) : tw * f.h / f.w < th := by
  rw [Nat.div_lt_iff_lt_mul hw]
  calc tw * f.h < f.w * th := hcase
    _ = th * f.w := Nat.mul_comm _ _

/-- In the tall branch the derived width stays strictly below the target
width, so the Python padding amount `target_w - new_w` is positive. -/
lemma tall_derived_lt (f : Frame) (tw th : ℕ) (hh : 0 < f.h)
    (hcase : f.w * th < tw * f.h) : th * f.w / f.h < tw := by
  rw [Nat.div_lt_iff_lt_mul hh]
  calc th * f.w = f.w * th := Nat.mul_comm _ _
    _ < tw * f.h := hcase

/-- The cross-multiplied equality case is the exact-rational equality of the
two aspect ratios. -/
lemma aspect_eq_of_cross (f : Frame) (tw th : ℕ) (hh : 0 < f.h) (hth : 0 < th)
    (hcase : tw * f.h = f.w * th) :
    (f.w : ℚ) / (f.h : ℚ) = (tw : ℚ) / (th : ℚ) := by
  rw [div_eq_div_iff (by exact_mod_cast hh.ne') (by exact_mod_cast hth.ne')]
  exact_mod_cast hcase.symm

/-- Under the letterbox policy the output frame always has exactly the target
dimensions. -/
lemma resize_and_pad_size (f : Frame) (tw th : ℕ) (hw : 0 < f.w) (hh : 0 < f.h)
    (hth : 0 < th) :
    (resize_and_pad_frame f (tw, th) true).w = tw ∧
    (resize_and_pad_frame f (tw, th) true).h = th := by
  rcases Nat.lt_trichotomy (tw * f.h) (f.w * th) with hcase | hcase | hcase
  · rw [resize_and_pad_wide f tw th hh hth hcase]
    have hlt := wide_derived_lt f tw th hw hcase
    refine ⟨by simp [copyMakeBorder, cvResize], ?_⟩
    simp only [copyMakeBorder, cvResize]
    omega
  · rw [resize_and_pad_equal f tw th (aspect_eq_of_cross f tw th hh hth hcase)]
    exact ⟨rfl, rfl⟩
  · rw [resize_and_pad_tall f tw th hh hth hcase]
    have hlt := tall_derived_lt f tw th hh hcase
    refine ⟨?_, by simp [copyMakeBorder, cvResize]⟩
    simp only [copyMakeBorder, cvResize]
    omega

/-! ## Concrete frames used as test inputs -/

/-- A uniform non-black pixel value, so padding bands are observable. -/
def gray : Pix := (200, 200, 200)

/-- A full-screen 1920x1080 landscape frame of uniform non-black content. -/
def frame1920x1080 : Frame := ⟨1920, 1080, fun _ _ => gray⟩

/-- **C3.** Letterbox policy of `_resize_and_pad_frame` (shorts format): a
source wider than the target aspect ratio is scaled to width `tw` with
integer-derived height and padded top/bottom with black to reach `th`; a
source taller than the target aspect ratio is scaled to height `th` with
integer-derived width and padded left/right with black to reach `tw`; equal
aspect ratios give a direct resize with no padding call; an uneven padding
amount puts the extra pixel on the bottom (resp. right) edge. -/
theorem letterbox_policy (f : Frame) (tw th : ℕ) (hw : 0 < f.w) (hh : 0 < f.h)
    (hth : 0 < th) :
    (((f.w : ℚ) / (f.h : ℚ) > (tw : ℚ) / (th : ℚ)) →
      ∃ nh pt pb, nh = tw * f.h / f.w ∧ nh < th ∧ pt + pb = th - nh ∧
        pt ≤ pb ∧ pb ≤ pt + 1 ∧
        resize_and_pad_frame f (tw, th) true =
          copyMakeBorder (cvResize f tw nh) pt pb 0 0 black ∧
        (resize_and_pad_frame f (tw, th) true).w = tw ∧
        (resize_and_pad_frame f (tw, th) true).h = th) ∧
    (((f.w : ℚ) / (f.h : ℚ) < (tw : ℚ) / (th : ℚ)) →
      ∃ nw pl pr, nw = th * f.w / f.h ∧ nw < tw ∧ pl + pr = tw - nw ∧
        pl ≤ pr ∧ pr ≤ pl + 1 ∧
        resize_and_pad_frame f (tw, th) true =
          copyMakeBorder (cvResize f nw th) 0 0 pl pr black ∧
        (resize_and_pad_frame f (tw, th) true).w = tw ∧
        (resize_and_pad_frame f (tw, th) true).h = th) ∧
    (((f.w : ℚ) / (f.h : ℚ) = (tw : ℚ) / (th : ℚ)) →
      resize_and_pad_frame f (tw, th) true = cvResize f tw th) := by
  refine ⟨fun hgt => ?_, fun hlt => ?_, fun heq => resize_and_pad_equal f tw th heq⟩
  · have hcase := (aspect_gt_iff f.w f.h tw th hh hth).mp hgt
    have hlt' := wide_derived_lt f tw th hw hcase
    refine ⟨tw * f.h / f.w, (th - tw * f.h / f.w) / 2,
      th - tw * f.h / f.w - (th - tw * f.h / f.w) / 2, rfl, hlt', by omega, by omega,
      by omega, resize_and_pad_wide f tw th hh hth hcase, ?_, ?_⟩
    · exact (resize_and_pad_size f tw th hw hh hth).1
    · exact (resize_and_pad_size f tw th hw hh hth).2
  · have hcase := (aspect_lt_iff f.w f.h tw th hh hth).mp hlt
    have hlt' := tall_derived_lt f tw th hh hcase
    refine ⟨th * f.w / f.h, (tw - th * f.w / f.h) / 2,
      tw - th * f.w / f.h - (tw - th * f.w / f.h) / 2, rfl, hlt', by omega, by omega,
      by omega, resize_and_pad_tall f tw th hh hth hcase, ?_, ?_⟩
    · exact (resize_and_pad_size f tw th hw hh hth).1
    · exact (resize_and_pad_size f tw th hw hh hth).2

/-- Witness for `letterbox_policy`: the wide-source case at the concrete
full-screen frame and the shorts target. -/
theorem letterbox_policy_witness :
    ∃ nh pt pb, nh = 1080 * frame1920x1080.h / frame1920x1080.w ∧ nh < 1920 ∧
      pt + pb = 1920 - nh ∧ pt ≤ pb ∧ pb ≤ pt + 1 ∧
      resize_and_pad_frame frame1920x1080 (1080, 1920) true =
        copyMakeBorder (cvResize frame1920x1080 1080 nh) pt pb 0 0 black ∧
      (resize_and_pad_frame frame1920x1080 (1080, 1920) true).w = 1080 ∧
      (resize_and_pad_frame frame1920x1080 (1080, 1920) true).h = 1920 :=
  (letterbox_policy frame1920x1080 1080 1920 (by decide) (by decide) (by decide)).1
    (by norm_num [frame1920x1080])

/-- **C10.** With the shorts target `(1080, 1920)`, every frame of positive
width and height is mapped to a frame of exactly the target dimensions; the
integer-floored derived dimension stays strictly below the corresponding
target dimension, so both Python padding amounts are non-negative. -/
theorem shorts_output_dims (f : Frame) (hw : 0 < f.w) (hh : 0 < f.h) :
    (resize_and_pad_frame f (1080, 1920) true).w = 1080 ∧
    (resize_and_pad_frame f (1080, 1920) true).h = 1920 ∧
    (1080 * f.h < f.w * 1920 →
      1080 * f.h / f.w < 1920 ∧ 0 ≤ (1920 : ℤ) - (1080 * f.h / f.w : ℕ)) ∧
    (f.w * 1920 < 1080 * f.h →
      1920 * f.w / f.h < 1080 ∧ 0 ≤ (1080 : ℤ) - (1920 * f.w / f.h : ℕ)) := by
  refine ⟨(resize_and_pad_size f 1080 1920 hw hh (by decide)).1,
    (resize_and_pad_size f 1080 1920 hw hh (by decide)).2, fun hcase => ?_, fun hcase => ?_⟩
  · have := wide_derived_lt f 1080 1920 hw hcase
    exact ⟨this, by omega⟩
  · have := tall_derived_lt f 1080 1920 hh hcase
    exact ⟨this, by omega⟩

/-- Witness for `shorts_output_dims` at the concrete full-screen frame. -/
theorem shorts_output_dims_witness :
    (resize_and_pad_frame frame1920x1080 (1080, 1920) true).w = 1080 ∧
    (resize_and_pad_frame frame1920x1080 (1080, 1920) true).h = 1920 ∧
    (1080 * frame1920x1080.h < frame1920x1080.w * 1920 →
      1080 * frame1920x1080.h / frame1920x1080.w < 1920 ∧
      0 ≤ (1920 : ℤ) - (1080 * frame1920x1080.h / frame1920x1080.w : ℕ)) ∧
    (frame1920x1080.w * 1920 < 1080 * frame1920x1080.h →
      1920 * frame1920x1080.w / frame1920x1080.h < 1080 ∧
      0 ≤ (1080 : ℤ) - (1920 * frame1920x1080.w / frame1920x1080.h : ℕ)) :=
  shorts_output_dims frame1920x1080 (by decide) (by decide)

/-- **C9 (counterexample).** For the full-screen 1920x1080 frame and target
1080x1920 the claim predicts left/right padding bands of width
`(1080 - int(1080*1080/1920))/2 = 236` each; in fact the leftmost column
carries source content (the frame is padded top/bottom, not left/right). -/
theorem scenario_fullscreen_side_bands_false :
    Nat.floor (((1080 * 1080 : ℕ) : ℚ) / ((1920 : ℕ) : ℚ)) = 607 ∧
    (1080 - 607) / 2 = 236 ∧ 0 < (236 : ℕ) ∧
    (resize_and_pad_frame frame1920x1080 (1080, 1920) true).px 960 0 = gray ∧
    gray ≠ black := by
  refine ⟨?_, by decide, by decide, ?_, by decide⟩
  · rw [Nat.floor_div_nat, Nat.floor_natCast]
  · rw [resize_and_pad_wide frame1920x1080 1080 1920 (by decide) (by decide) (by decide)]
    rfl

/-- **C9 (amended).** The actual letterbox of the full-screen scenario: the
frame is scaled to 1080x607 (`607 = int(1080*1080/1920)`) and padded with
black bands on the top and bottom edges of heights 656 and 657 (the odd
pixel goes to the bottom), with no left/right padding. -/
theorem scenario_fullscreen_top_bottom_bands :
    resize_and_pad_frame frame1920x1080 (1080, 1920) true =
      copyMakeBorder (cvResize frame1920x1080 1080 607) 656 657 0 0 black ∧
    607 = 1080 * 1080 / 1920 ∧ 656 = (1920 - 607) / 2 ∧
    657 = (1920 - 607) - 656 ∧
    (resize_and_pad_frame frame1920x1080 (1080, 1920) true).w = 1080 ∧
    (resize_and_pad_frame frame1920x1080 (1080, 1920) true).h = 1920 := by
  refine ⟨?_, by decide, by decide, by decide, ?_, ?_⟩
  · rw [resize_and_pad_wide frame1920x1080 1080 1920 (by decide) (by decide) (by decide)]
    rfl
  · exact (resize_and_pad_size frame1920x1080 1080 1920 (by decide) (by decide) (by decide)).1
  · exact (resize_and_pad_size frame1920x1080 1080 1920 (by decide) (by decide) (by decide)).2

/-! ## Recorder configuration, queues and worker threads -/

/-- The constructor arguments of `Recorder.__init__` that the orchestration
logic reads (lines 115-209). -/
structure RecorderCfg where
  video_filename_temp : String
  mic_audio_filename_temp : String
  sys_audio_filename_temp : String
  mic_device_index : Option ℕ
  mic_samplerate : ℕ
  mic_channels : ℕ
  sys_device_index : Option ℕ
  sys_samplerate : ℕ
  sys_channels : ℕ
  output_filename_final : String
  ffmpeg_path : String

/-- `self.record_sys_audio = self.sys_device_index is not None` (line 191). -/
def record_sys_audio (c : RecorderCfg) : Bool :=
  c.sys_device_index.isSome

/-- Model of Python's `queue.Queue(maxsize)`: per the library semantics, a
`maxsize` of zero (the default) means the queue capacity is infinite, and a
`put` blocks only when `0 < maxsize` and the queue already holds `maxsize`
items. -/
structure PyQueue where
  maxsize : ℕ

/-- A queue has finite capacity exactly when its `maxsize` is positive. -/
def queueIsBounded (q : PyQueue) : Prop :=
  0 < q.maxsize

instance (q : PyQueue) : Decidable (queueIsBounded q) := by
  unfold queueIsBounded
  infer_instance

/-- Whether `put` (as issued by `_audio_callback`, line 220) blocks when the
queue currently holds `len` items. -/
def putBlocks (q : PyQueue) (len : ℕ) : Bool :=
  decide (0 < q.maxsize) && decide (q.maxsize ≤ len)

/-- `self.mic_audio_queue = queue.Queue()` (line 194): created with the
default `maxsize`, i.e. zero. -/
def mic_audio_queue (_c : RecorderCfg) : PyQueue :=
  ⟨0⟩

/-- `self.sys_audio_queue = queue.Queue() if self.record_sys_audio else None`
(line 196). -/
def sys_audio_queue (c : RecorderCfg) : Option PyQueue :=
  if record_sys_audio c then some ⟨0⟩ else none

/-- The two capture sources handled by audio worker threads. -/
inductive AudioSource where
  | mic
  | sys
deriving DecidableEq

/-- The audio worker threads that `Recorder.start` creates and starts
(lines 653-693): the microphone thread is created and started
unconditionally; the system-audio thread only when `record_sys_audio` holds
(and then `sys_audio_queue` is present). -/
def started_audio_workers (c : RecorderCfg) : List AudioSource :=
  [AudioSource.mic] ++
    (if record_sys_audio c ∧ (sys_audio_queue c).isSome then [AudioSource.sys] else [])

/-! ## Filesystem and external-encoder model -/

/-- A filesystem: maps a path to the size of the file there, if it exists. -/
def FS : Type :=
  String → Option ℕ

/-- `os.path.exists`. -/
def FS.check (fs : FS) (p : String) : Bool :=
  (fs p).isSome

/-- `os.path.getsize` (only ever called behind an existence check). -/
def FS.getsize (fs : FS) (p : String) : ℕ :=
  (fs p).getD 0

/-- `os.remove`. -/
def FS.remove (fs : FS) (p : String) : FS :=
  fun q => if q = p then none else fs q

/-- Result of `subprocess.run(ffmpeg_command, check=True, capture_output=True)`:
either the child exits (nonzero exit raises `CalledProcessError` carrying the
captured stderr), or execution itself fails (`FileNotFoundError` or another
exception). -/
inductive EncResult where
  | exited (code : ℕ) (stderr : String)
  | execError (msg : String)

/-- Per-worker completion flags, written by the video loop and the two audio
threads before `_process_output` reads them. -/
structure SessionState where
  video_success : Bool
  mic_audio_success : Bool
  sys_audio_success : Bool

/-- `video_valid` (line 458): worker success and file existence — the source
performs no size check on the video artifact. -/
def video_valid (c : RecorderCfg) (st : SessionState) (fs : FS) : Bool :=
  st.video_success && fs.check c.video_filename_temp

/-- `mic_audio_valid` (lines 460-464): success, existence, and size above the
1024-byte threshold. -/
def mic_audio_valid (c : RecorderCfg) (st : SessionState) (fs : FS) : Bool :=
  st.mic_audio_success && fs.check c.mic_audio_filename_temp &&
    decide (1024 < fs.getsize c.mic_audio_filename_temp)

/-- `sys_audio_valid` (lines 465-470): configured, success, existence, and
size above the 1024-byte threshold. -/
def sys_audio_valid (c : RecorderCfg) (st : SessionState) (fs : FS) : Bool :=
  record_sys_audio c && st.sys_audio_success && fs.check c.sys_audio_filename_temp &&
    decide (1024 < fs.getsize c.sys_audio_filename_temp)

/-! ## FFmpeg command construction (`_process_output`, lines 481-569) -/

/-- The f-string `f"[{input_count}:a]"` labelling an audio input. -/
def streamLabel (n : ℕ) : String :=
  "[" ++ toString n ++ ":a]"

/-- The two-audio-input `filter_complex` (lines 516-525): PTS reset on video
and both audio streams, a fixed `-0.5/TB` offset on the system-audio stream,
and a two-input `amix` into `[a_mix]`. -/
def mix_filter_expr (a b : String) : String :=
  "[0:v:0]setpts=PTS-STARTPTS[v_synced];" ++ a ++
    "asetpts=PTS-STARTPTS,asetnsamples=n=1024,aresample=async=1000[a_mic];" ++ b ++
    "asetpts=PTS-STARTPTS-0.5/TB,asetnsamples=n=1024,aresample=async=1000[a_sys];" ++
    "[a_mic][a_sys]amix=inputs=2:duration=longest:normalize=0[a_mix]"

/-- The single-audio-input `filter_complex` (lines 534-539): PTS reset on the
video and on the one audio stream; no fixed offset is applied. -/
def single_filter_expr (a : String) : String :=
  "[0:v:0]setpts=PTS-STARTPTS[v_synced];" ++ a ++
    "asetpts=PTS-STARTPTS,asetnsamples=n=1024,aresample=async=1000[a_synced]"

/-- The audio-less `filter_complex` (line 549). -/
def video_only_filter_expr : String :=
  "[0:v:0]setpts=PTS-STARTPTS[v_synced]"

/-- The ffmpeg invocation assembled by `_process_output` from the two audio
validity flags (lines 482-569).  The `audio_output_map_label` variable of the
source is always `None` by the time it is tested (lines 530, 544), so the
dead re-mapping branch at lines 558-562 is not taken and is not modelled. -/
def build_ffmpeg_command (c : RecorderCfg) (micValid sysValid : Bool) : List String :=
  let cmd0 := [c.ffmpeg_path, "-y", "-i", c.video_filename_temp]
  let cmd1 := if micValid then cmd0 ++ ["-i", c.mic_audio_filename_temp] else cmd0
  let filter1 : List String := if micValid then [streamLabel 1] else []
  let count1 : ℕ := if micValid then 2 else 1
  let cmd2 := if sysValid then cmd1 ++ ["-i", c.sys_audio_filename_temp] else cmd1
  let filter2 := if sysValid then filter1 ++ [streamLabel count1] else filter1
  let cmd3 :=
    if 2 ≤ filter2.length then
      cmd2 ++ ["-filter_complex", mix_filter_expr (filter2.getD 0 ("")) (filter2.getD 1 (""))] ++
        ["-map", "[v_synced]", "-map", "[a_mix]"]
    else if filter2.length = 1 then
      cmd2 ++ ["-filter_complex", single_filter_expr (filter2.getD 0 (""))] ++
        ["-map", "[v_synced]", "-map", "[a_synced]"]
    else
      cmd2 ++ ["-filter_complex", video_only_filter_expr] ++ ["-map", "[v_synced]", "-an"]
  let cmd4 := cmd3 ++ ["-c:v", "libx264"]
  let cmd5 := if 0 < filter2.length then cmd4 ++ ["-c:a", "aac", "-b:a", "192k"] else cmd4
  cmd5 ++ [c.output_filename_final]

/-- The list of still-existing temporary files collected for cleanup
(lines 606-613): video, mic audio, and — only when the system source was
configured — system audio. -/
def temp_files_to_remove (c : RecorderCfg) (fs : FS) : List String :=
  (if fs.check c.video_filename_temp then [c.video_filename_temp] else []) ++
    (if fs.check c.mic_audio_filename_temp then [c.mic_audio_filename_temp] else []) ++
    (if record_sys_audio c && fs.check c.sys_audio_filename_temp then
        [c.sys_audio_filename_temp] else [])

/-- The observable result of `_process_output`: the filesystem after cleanup,
the command handed to the encoder (if any), the `merge_success` flag, and the
captured diagnostic text logged on failure. -/
structure ProcessResult where
  fs : FS
  invoked_command : Option (List String)
  merge_success : Bool
  diagnostic : Option String

/-- The leftover-audio cleanup of the abort path (lines 474-478): delete the
mic temporary if present, and the system temporary if the system source was
configured and its file is present. -/
def abort_cleanup (c : RecorderCfg) (fs : FS) : FS :=
  let fs1 :=
    if fs.check c.mic_audio_filename_temp then fs.remove c.mic_audio_filename_temp else fs
  if record_sys_audio c && fs1.check c.sys_audio_filename_temp then
    fs1.remove c.sys_audio_filename_temp
  else fs1

/-- `Recorder._process_output` (lines 448-635): validity checks, early abort
with audio-temp cleanup when the video artifact is unusable, encoder
invocation, and cleanup of the collected temporaries exactly when the child
exited with code 0 (non-zero exit and execution errors are caught, logged
with the captured stderr, and leave the files in place). -/
def process_output (c : RecorderCfg) (st : SessionState) (fs : FS)
    (run : List String → EncResult) : ProcessResult :=
  if video_valid c st fs then
    let cmd := build_ffmpeg_command c (mic_audio_valid c st fs) (sys_audio_valid c st fs)
    match run cmd with
    | .exited 0 _ =>
        ⟨(temp_files_to_remove c fs).foldl FS.remove fs, some cmd, true, none⟩
    | .exited _ stderr => ⟨fs, some cmd, false, some stderr⟩
    | .execError msg => ⟨fs, some cmd, false, some msg⟩
  else
    ⟨abort_cleanup c fs, none, false, none⟩

/-! ## Observation helpers on assembled commands -/

/-- `true` iff `pat` occurs as a contiguous substring of `s`. -/
def hasSubstr (s pat : String) : Bool :=
  decide (pat.data <:+: s.data)

/-- The stream specifiers passed with `-map` flags, in order. -/
def mapped_streams : List String → List String
  | [] => []
  | a :: rest =>
    if a = "-map" then
      match rest with
      | [] => []
      | x :: rest2 => x :: mapped_streams rest2
    else mapped_streams rest

/-- The input files passed with `-i` flags, in order. -/
def input_files : List String → List String
  | [] => []
  | a :: rest =>
    if a = "-i" then
      match rest with
      | [] => []
      | x :: rest2 => x :: input_files rest2
    else input_files rest

/-! ## Cleanup lemmas -/

lemma FS.eq_none_of_check_false {fs : FS} {p : String} (h : fs.check p = false) :
    fs p = none := by
  unfold FS.check at h
  cases hfs : fs p with
  | none => rfl
  | some v => rw [hfs] at h; cases h

lemma foldl_remove_apply (l : List String) (fs : FS) (p : String) :
    (l.foldl FS.remove fs) p = if p ∈ l then none else fs p := by
  induction l generalizing fs with
  | nil => simp
  | cons a l ih =>
    simp only [List.foldl_cons, ih, List.mem_cons]
    by_cases hp : p ∈ l
    · simp [hp]
    · by_cases hpa : p = a
      · simp [hp, hpa, FS.remove]
      · simp [hp, hpa, FS.remove]

lemma cleanup_removes_video (c : RecorderCfg) (fs : FS)
    (h : fs.check c.video_filename_temp = true) :
    ((temp_files_to_remove c fs).foldl FS.remove fs) c.video_filename_temp = none := by
  rw [foldl_remove_apply]
  have hm : c.video_filename_temp ∈ temp_files_to_remove c fs := by
    unfold temp_files_to_remove
    simp [h]
  simp [hm]

lemma cleanup_removes_mic (c : RecorderCfg) (fs : FS) :
    ((temp_files_to_remove c fs).foldl FS.remove fs) c.mic_audio_filename_temp = none := by
  rw [foldl_remove_apply]
  by_cases hm : c.mic_audio_filename_temp ∈ temp_files_to_remove c fs
  · simp [hm]
  · by_cases hc : fs.check c.mic_audio_filename_temp = true
    · exact absurd (by unfold temp_files_to_remove; simp [hc]) hm
    · simp only [hm, if_false]
      exact FS.eq_none_of_check_false (by simpa using hc)

lemma cleanup_removes_sys (c : RecorderCfg) (fs : FS)
    (hrec : record_sys_audio c = true) :
    ((temp_files_to_remove c fs).foldl FS.remove fs) c.sys_audio_filename_temp = none := by
  rw [foldl_remove_apply]
  by_cases hm : c.sys_audio_filename_temp ∈ temp_files_to_remove c fs
  · simp [hm]
  · by_cases hc : fs.check c.sys_audio_filename_temp = true
    · exact absurd (by unfold temp_files_to_remove; simp [hc, hrec]) hm
    · simp only [hm, if_false]
      exact FS.eq_none_of_check_false (by simpa using hc)

lemma abort_cleanup_mic (c : RecorderCfg) (fs : FS) :
    abort_cleanup c fs c.mic_audio_filename_temp = none := by
  unfold abort_cleanup
  have h1 : (if fs.check c.mic_audio_filename_temp then
      fs.remove c.mic_audio_filename_temp else fs) c.mic_audio_filename_temp = none := by
    by_cases hc : fs.check c.mic_audio_filename_temp = true
    · simp [hc, FS.remove]
    · simp only [Bool.not_eq_true] at hc
      simp only [hc, Bool.false_eq_true, if_false]
      exact FS.eq_none_of_check_false hc
  by_cases hs : (record_sys_audio c &&
      (if fs.check c.mic_audio_filename_temp then
        fs.remove c.mic_audio_filename_temp else fs).check c.sys_audio_filename_temp) = true
  · simp only [hs, if_true, FS.remove]
    by_cases he : c.mic_audio_filename_temp = c.sys_audio_filename_temp
    · simp [he]
    · simp [he, h1]
  · simp only [Bool.not_eq_true] at hs
    simp only [hs, Bool.false_eq_true, if_false]
    exact h1

lemma abort_cleanup_sys (c : RecorderCfg) (fs : FS)
    (hrec : record_sys_audio c = true) :
    abort_cleanup c fs c.sys_audio_filename_temp = none := by
  unfold abort_cleanup
  by_cases hs : (record_sys_audio c &&
      (if fs.check c.mic_audio_filename_temp then
        fs.remove c.mic_audio_filename_temp else fs).check c.sys_audio_filename_temp) = true
  · simp only [hs, if_true, FS.remove]
  · simp only [Bool.not_eq_true, hrec, Bool.true_and] at hs
    simp only [hrec, Bool.true_and, hs, Bool.false_eq_true, if_false]
    exact FS.eq_none_of_check_false hs

/-! ## Concrete sessions used as test inputs -/

/-- A session configured with both a microphone and a system-audio device. -/
def cfgBoth : RecorderCfg :=
  { video_filename_temp := "temp_video.avi"
    mic_audio_filename_temp := "temp_mic.wav"
    sys_audio_filename_temp := "temp_sys.wav"
    mic_device_index := some 1
    mic_samplerate := 44100
    mic_channels := 1
    sys_device_index := some 3
    sys_samplerate := 44100
    sys_channels := 2
    output_filename_final := "final.mp4"
    ffmpeg_path := "ffmpeg" }

/-- The same session with a null microphone device identifier. -/
def cfgMicNone : RecorderCfg :=
  { cfgBoth with mic_device_index := none }

/-- The same session with a null system-audio device identifier. -/
def cfgSysNone : RecorderCfg :=
  { cfgBoth with sys_device_index := none }

/-- All three workers reported success. -/
def stAll : SessionState :=
  ⟨true, true, true⟩

/-- Only the video worker reported success. -/
def stVideoOnly : SessionState :=
  ⟨true, false, false⟩

/-- The video worker failed; both audio workers reported success. -/
def stNoVideo : SessionState :=
  ⟨false, true, true⟩

/-- Video and system-audio success, microphone failure. -/
def stSysOnly : SessionState :=
  ⟨true, false, true⟩

/-- All three temporaries exist, each well above the 1024-byte threshold. -/
def fsAll : FS := fun p =>
  if p = "temp_video.avi" then some 5000
  else if p = "temp_mic.wav" then some 5000
  else if p = "temp_sys.wav" then some 5000
  else none

/-- Only the video temporary exists. -/
def fsVideoOnly : FS := fun p =>
  if p = "temp_video.avi" then some 5000 else none

/-- Video and system-audio temporaries exist; no mic temporary. -/
def fsSysVideo : FS := fun p =>
  if p = "temp_video.avi" then some 5000
  else if p = "temp_sys.wav" then some 5000
  else none

/-- The video temporary exists but is empty (size 0). -/
def fsEmptyVideo : FS := fun p =>
  if p = "temp_video.avi" then some 0 else none

/-- An encoder that exits with code 0. -/
def runOk : List String → EncResult := fun _ =>
  EncResult.exited 0 ("")

/-- An encoder that exits with code 1 and diagnostic text on stderr. -/
def runFail : List String → EncResult := fun _ =>
  EncResult.exited 1 ("ffmpeg: conversion failed")

/-! ## Claims about worker start-up and the handoff queues -/

/-- **C2 (counterexample).** With a null microphone device identifier the
session still creates and starts the microphone worker thread:
`Recorder.start` (lines 654-669) has no device check for the mic source. -/
theorem mic_worker_started_despite_null_device :
    cfgMicNone.mic_device_index = none ∧
    AudioSource.mic ∈ started_audio_workers cfgMicNone := by
  exact ⟨rfl, by decide⟩

/-- **C2 (amended).** Only the system-audio source is skipped on a null
device identifier: its worker thread is never started and the session
proceeds without it.  The microphone worker thread is started
unconditionally, even when the mic device identifier is null (the null is
passed through to the stream open, where it selects the default device). -/
theorem null_device_skips_only_sys_worker (c : RecorderCfg) :
    (c.sys_device_index = none → AudioSource.sys ∉ started_audio_workers c) ∧
    AudioSource.mic ∈ started_audio_workers c := by
  constructor
  · intro hnone
    have hrec : record_sys_audio c = false := by
      unfold record_sys_audio
      rw [hnone]
      rfl
    unfold started_audio_workers
    simp [hrec]
  · unfold started_audio_workers
    simp

/-- Witness for `null_device_skips_only_sys_worker` at the session whose
system device is null. -/
theorem null_device_skips_only_sys_worker_witness :
    AudioSource.sys ∉ started_audio_workers cfgSysNone ∧
    AudioSource.mic ∈ started_audio_workers cfgSysNone :=
  ⟨(null_device_skips_only_sys_worker cfgSysNone).1 rfl,
    (null_device_skips_only_sys_worker cfgSysNone).2⟩

/-- **C8 (counterexample).** The microphone handoff queue is created as
`queue.Queue()` with the default `maxsize = 0`, which the queue semantics
define as infinite capacity: the callback-to-writer channel is not bounded. -/
theorem audio_queue_not_bounded :
    ¬ queueIsBounded (mic_audio_queue cfgBoth) := by
  decide

/-- **C8 (amended).** Every handoff queue the session creates has the default
`maxsize = 0`, i.e. unbounded (infinite) capacity; consequently the driver
callback's `put` never blocks, whatever the current queue length. -/
theorem audio_queues_unbounded (c : RecorderCfg) :
    (mic_audio_queue c).maxsize = 0 ∧ ¬ queueIsBounded (mic_audio_queue c) ∧
    (∀ n, putBlocks (mic_audio_queue c) n = false) ∧
    (∀ q, sys_audio_queue c = some q →
      q.maxsize = 0 ∧ ¬ queueIsBounded q ∧ ∀ n, putBlocks q n = false) := by
  refine ⟨rfl, by simp [queueIsBounded, mic_audio_queue], fun n => rfl, fun q hq => ?_⟩
  unfold sys_audio_queue at hq
  by_cases hrec : record_sys_audio c = true
  · rw [hrec, if_pos rfl] at hq
    cases hq
    exact ⟨rfl, by decide, fun n => rfl⟩
  · simp only [Bool.not_eq_true] at hrec
    rw [hrec] at hq
    simp at hq

/-- Witness for `audio_queues_unbounded` at the doubly-configured session. -/
theorem audio_queues_unbounded_witness :
    (mic_audio_queue cfgBoth).maxsize = 0 ∧
    (⟨0⟩ : PyQueue).maxsize = 0 ∧
    putBlocks (⟨0⟩ : PyQueue) 5 = false :=
  ⟨(audio_queues_unbounded cfgBoth).1,
    ((audio_queues_unbounded cfgBoth).2.2.2 ⟨0⟩ rfl).1,
    ((audio_queues_unbounded cfgBoth).2.2.2 ⟨0⟩ rfl).2.2 5⟩

/-! ## Claims about the output assembler -/

/-- **C1 (counterexample).** With the video worker successful and the video
temporary existing but of size 0 — below any minimum-size sanity threshold,
in particular below the 1024-byte threshold the source applies to the audio
artifacts — `_process_output` still invokes the external encoder: the video
validity check at line 458 has no size component. -/
theorem encoder_invoked_despite_empty_video :
    stVideoOnly.video_success = true ∧
    fsEmptyVideo cfgBoth.video_filename_temp = some 0 ∧
    ¬ (1024 : ℕ) < 0 ∧
    (process_output cfgBoth stVideoOnly fsEmptyVideo runOk).invoked_command.isSome = true := by
  exact ⟨rfl, rfl, by decide, rfl⟩

/-- **C1 (amended).** The assembler invokes the encoder iff the video worker
reported success and the video temporary exists (the source checks no size
threshold on the video artifact); when that gate fails it deletes the
leftover audio temporaries (mic, and system audio when the system source was
configured) and returns a failure outcome without invoking the encoder. -/
theorem video_gate_for_encoder (c : RecorderCfg) (st : SessionState) (fs : FS)
    (run : List String → EncResult) :
    (video_valid c st fs = false →
      (process_output c st fs run).invoked_command = none ∧
      (process_output c st fs run).merge_success = false ∧
      (process_output c st fs run).fs c.mic_audio_filename_temp = none ∧
      (record_sys_audio c = true →
        (process_output c st fs run).fs c.sys_audio_filename_temp = none)) ∧
    (video_valid c st fs = true →
      (process_output c st fs run).invoked_command =
        some (build_ffmpeg_command c (mic_audio_valid c st fs) (sys_audio_valid c st fs))) := by
  constructor
  · intro hv
    have h1 : process_output c st fs run = ⟨abort_cleanup c fs, none, false, none⟩ := by
      simp only [process_output, hv, Bool.false_eq_true, if_false]
    rw [h1]
    exact ⟨rfl, rfl, abort_cleanup_mic c fs, fun hrec => abort_cleanup_sys c fs hrec⟩
  · intro hv
    simp only [process_output, hv, if_true]
    rcases hr : run (build_ffmpeg_command c (mic_audio_valid c st fs)
        (sys_audio_valid c st fs)) with ⟨code, stderr⟩ | msg
    · cases code with
      | zero => rfl
      | succ n => rfl
    · rfl

/-- Witness for `video_gate_for_encoder`: the abort path at a session whose
video worker failed, and the invoke path at a fully successful session. -/
theorem video_gate_for_encoder_witness :
    ((process_output cfgBoth stNoVideo fsAll runOk).invoked_command = none ∧
      (process_output cfgBoth stNoVideo fsAll runOk).merge_success = false ∧
      (process_output cfgBoth stNoVideo fsAll runOk).fs cfgBoth.mic_audio_filename_temp =
        none ∧
      (record_sys_audio cfgBoth = true →
        (process_output cfgBoth stNoVideo fsAll runOk).fs cfgBoth.sys_audio_filename_temp =
          none)) ∧
    (process_output cfgBoth stAll fsAll runOk).invoked_command =
      some (build_ffmpeg_command cfgBoth (mic_audio_valid cfgBoth stAll fsAll)
        (sys_audio_valid cfgBoth stAll fsAll)) :=
  ⟨(video_gate_for_encoder cfgBoth stNoVideo fsAll runOk).1 rfl,
    (video_gate_for_encoder cfgBoth stAll fsAll runOk).2 rfl⟩

/-- **C6.** With a usable video artifact, the temporaries still present
(video, mic audio, and system audio when the system source was configured)
are deleted iff the encoder child exits with code 0; on a non-zero exit or
an execution error the filesystem is left untouched and the failure is
reported as a structured outcome carrying the captured diagnostic text, not
raised. -/
theorem cleanup_iff_exit_zero (c : RecorderCfg) (st : SessionState) (fs : FS)
    (run : List String → EncResult)
    (hv : video_valid c st fs = true) :
    (∀ s, run (build_ffmpeg_command c (mic_audio_valid c st fs) (sys_audio_valid c st fs)) =
        EncResult.exited 0 s →
      (process_output c st fs run).merge_success = true ∧
      (process_output c st fs run).fs c.video_filename_temp = none ∧
      (process_output c st fs run).fs c.mic_audio_filename_temp = none ∧
      (record_sys_audio c = true →
        (process_output c st fs run).fs c.sys_audio_filename_temp = none)) ∧
    (∀ code s,
      run (build_ffmpeg_command c (mic_audio_valid c st fs) (sys_audio_valid c st fs)) =
        EncResult.exited code s → code ≠ 0 →
      (process_output c st fs run).fs = fs ∧
      (process_output c st fs run).merge_success = false ∧
      (process_output c st fs run).diagnostic = some s) ∧
    (∀ m,
      run (build_ffmpeg_command c (mic_audio_valid c st fs) (sys_audio_valid c st fs)) =
        EncResult.execError m →
      (process_output c st fs run).fs = fs ∧
      (process_output c st fs run).merge_success = false ∧
      (process_output c st fs run).diagnostic = some m) := by
  have hcv : fs.check c.video_filename_temp = true := by
    unfold video_valid at hv
    exact (Bool.and_eq_true_iff.mp hv).2
  refine ⟨fun s hrun => ?_, fun code s hrun hcode => ?_, fun m hrun => ?_⟩
  · have h1 : process_output c st fs run =
        ⟨(temp_files_to_remove c fs).foldl FS.remove fs,
          some (build_ffmpeg_command c (mic_audio_valid c st fs) (sys_audio_valid c st fs)),
          true, none⟩ := by
      simp only [process_output, hv, if_true, hrun]
    rw [h1]
    exact ⟨rfl, cleanup_removes_video c fs hcv, cleanup_removes_mic c fs,
      fun hrec => cleanup_removes_sys c fs hrec⟩
  · cases code with
    | zero => exact absurd rfl hcode
    | succ n =>
      have h1 : process_output c st fs run =
          ⟨fs, some (build_ffmpeg_command c (mic_audio_valid c st fs)
            (sys_audio_valid c st fs)), false, some s⟩ := by
        simp only [process_output, hv, if_true, hrun]
      rw [h1]
      exact ⟨rfl, rfl, rfl⟩
  · have h1 : process_output c st fs run =
        ⟨fs, some (build_ffmpeg_command c (mic_audio_valid c st fs)
          (sys_audio_valid c st fs)), false, some m⟩ := by
      simp only [process_output, hv, if_true, hrun]
    rw [h1]
    exact ⟨rfl, rfl, rfl⟩

/-- Witness for `cleanup_iff_exit_zero`: success-side cleanup with a
zero-exit encoder and failure-side preservation with an encoder exiting 1. -/
theorem cleanup_iff_exit_zero_witness :
    ((process_output cfgBoth stAll fsAll runOk).merge_success = true ∧
      (process_output cfgBoth stAll fsAll runOk).fs cfgBoth.video_filename_temp = none ∧
      (process_output cfgBoth stAll fsAll runOk).fs cfgBoth.mic_audio_filename_temp = none ∧
      (record_sys_audio cfgBoth = true →
        (process_output cfgBoth stAll fsAll runOk).fs cfgBoth.sys_audio_filename_temp =
          none)) ∧
    ((process_output cfgBoth stAll fsAll runFail).fs = fsAll ∧
      (process_output cfgBoth stAll fsAll runFail).merge_success = false ∧
      (process_output cfgBoth stAll fsAll runFail).diagnostic =
        some ("ffmpeg: conversion failed")) :=
  ⟨(cleanup_iff_exit_zero cfgBoth stAll fsAll runOk rfl).1 ("") rfl,
    (cleanup_iff_exit_zero cfgBoth stAll fsAll runFail rfl).2.1 1
      ("ffmpeg: conversion failed") rfl (by decide)⟩

/-- **C4.** When both audio artifacts are usable, the assembled command's
filter graph feeds both audio inputs through a single two-input `amix` whose
output `[a_mix]` is the only audio stream mapped, alongside the re-encoded
(`-c:v libx264`) video stream `[v_synced]`; no separate audio tracks are
mapped. -/
theorem both_audio_single_mix (c : RecorderCfg)
    (h1 : c.ffmpeg_path ≠ "-map") (h2 : c.video_filename_temp ≠ "-map")
    (h3 : c.mic_audio_filename_temp ≠ "-map")
    (h4 : c.sys_audio_filename_temp ≠ "-map") :
    build_ffmpeg_command c true true =
      [c.ffmpeg_path, "-y", "-i", c.video_filename_temp, "-i",
        c.mic_audio_filename_temp, "-i", c.sys_audio_filename_temp, "-filter_complex",
        mix_filter_expr (streamLabel 1) (streamLabel 2), "-map", "[v_synced]", "-map",
        "[a_mix]", "-c:v", "libx264", "-c:a", "aac", "-b:a", "192k",
        c.output_filename_final] ∧
    mapped_streams (build_ffmpeg_command c true true) = ["[v_synced]", "[a_mix]"] ∧
    hasSubstr (mix_filter_expr (streamLabel 1) (streamLabel 2))
      ("amix=inputs=2:duration=longest:normalize=0[a_mix]") = true := by
  have hb : build_ffmpeg_command c true true =
      [c.ffmpeg_path, "-y", "-i", c.video_filename_temp, "-i",
        c.mic_audio_filename_temp, "-i", c.sys_audio_filename_temp, "-filter_complex",
        mix_filter_expr (streamLabel 1) (streamLabel 2), "-map", "[v_synced]", "-map",
        "[a_mix]", "-c:v", "libx264", "-c:a", "aac", "-b:a", "192k",
        c.output_filename_final] := rfl
  have hf : mix_filter_expr (streamLabel 1) (streamLabel 2) ≠ "-map" := by decide
  refine ⟨hb, ?_, by decide⟩
  rw [hb]
  simp [mapped_streams, h1, h2, h3, h4, hf]

/-- Witness for `both_audio_single_mix` at the doubly-configured session. -/
theorem both_audio_single_mix_witness :
    mapped_streams (build_ffmpeg_command cfgBoth true true) = ["[v_synced]", "[a_mix]"] :=
  (both_audio_single_mix cfgBoth (by decide) (by decide) (by decide) (by decide)).2.1

/-- **C5 (counterexample).** A session where the system-audio artifact is
usable but the microphone artifact is not: the assembler invokes the
single-audio command, and no element of that command — in particular not its
filter expression — contains the fixed `-0.5/TB` offset. -/
theorem sys_only_assembly_lacks_offset :
    sys_audio_valid cfgBoth stSysOnly fsSysVideo = true ∧
    mic_audio_valid cfgBoth stSysOnly fsSysVideo = false ∧
    (process_output cfgBoth stSysOnly fsSysVideo runOk).invoked_command =
      some (build_ffmpeg_command cfgBoth false true) ∧
    (build_ffmpeg_command cfgBoth false true).all
      (fun x => !(hasSubstr x ("-0.5/TB"))) = true := by
  exact ⟨rfl, rfl, rfl, by decide⟩

/-- **C5 (amended).** The fixed `-0.5/TB` offset is applied to the
system-audio stream only in the two-audio-input branch; with a single usable
audio input — even when that input is the system audio — the filter applies
only the plain timeline reset and no negative offset. -/
theorem sys_offset_only_with_two_audio (c : RecorderCfg) :
    build_ffmpeg_command c true true =
      [c.ffmpeg_path, "-y", "-i", c.video_filename_temp, "-i",
        c.mic_audio_filename_temp, "-i", c.sys_audio_filename_temp, "-filter_complex",
        mix_filter_expr (streamLabel 1) (streamLabel 2), "-map", "[v_synced]", "-map",
        "[a_mix]", "-c:v", "libx264", "-c:a", "aac", "-b:a", "192k",
        c.output_filename_final] ∧
    hasSubstr (mix_filter_expr (streamLabel 1) (streamLabel 2))
      ("asetpts=PTS-STARTPTS-0.5/TB,asetnsamples=n=1024,aresample=async=1000[a_sys]") =
      true ∧
    build_ffmpeg_command c false true =
      [c.ffmpeg_path, "-y", "-i", c.video_filename_temp, "-i",
        c.sys_audio_filename_temp, "-filter_complex", single_filter_expr (streamLabel 1),
        "-map", "[v_synced]", "-map", "[a_synced]", "-c:v", "libx264", "-c:a", "aac",
        "-b:a", "192k", c.output_filename_final] ∧
    hasSubstr (single_filter_expr (streamLabel 1)) ("-0.5/TB") = false := by
  exact ⟨rfl, by decide, rfl, by decide⟩

/-- **C7.** With a usable video artifact and zero usable audio artifacts,
assembly still proceeds: the encoder is invoked with the video temporary as
its only input, a video-only filter and a single video mapping, and the
explicit `-an` audio-disable flag; with a zero-exit encoder the outcome is
success. -/
theorem video_only_assembly (c : RecorderCfg) (st : SessionState) (fs : FS)
    (run : List String → EncResult) (s : String)
    (hv : video_valid c st fs = true)
    (hm : mic_audio_valid c st fs = false)
    (hs : sys_audio_valid c st fs = false)
    (hi : c.ffmpeg_path ≠ "-i")
    (hmap1 : c.ffmpeg_path ≠ "-map") (hmap2 : c.video_filename_temp ≠ "-map")
    (hrun : run (build_ffmpeg_command c false false) = EncResult.exited 0 s) :
    (process_output c st fs run).invoked_command =
      some (build_ffmpeg_command c false false) ∧
    (process_output c st fs run).merge_success = true ∧
    build_ffmpeg_command c false false =
      [c.ffmpeg_path, "-y", "-i", c.video_filename_temp, "-filter_complex",
        video_only_filter_expr, "-map", "[v_synced]", "-an", "-c:v", "libx264",
        c.output_filename_final] ∧
    input_files (build_ffmpeg_command c false false) = [c.video_filename_temp] ∧
    mapped_streams (build_ffmpeg_command c false false) = ["[v_synced]"] ∧
    "-an" ∈ build_ffmpeg_command c false false := by
  have hb : build_ffmpeg_command c false false =
      [c.ffmpeg_path, "-y", "-i", c.video_filename_temp, "-filter_complex",
        video_only_filter_expr, "-map", "[v_synced]", "-an", "-c:v", "libx264",
        c.output_filename_final] := rfl
  have hfi : video_only_filter_expr ≠ "-i" := by decide
  have hfm : video_only_filter_expr ≠ "-map" := by decide
  have h1 : process_output c st fs run =
      ⟨(temp_files_to_remove c fs).foldl FS.remove fs,
        some (build_ffmpeg_command c (mic_audio_valid c st fs) (sys_audio_valid c st fs)),
        true, none⟩ := by
    simp only [process_output, hv, if_true, hm, hs, hrun]
  refine ⟨?_, ?_, hb, ?_, ?_, ?_⟩
  · rw [h1, hm, hs]
  · rw [h1]
  · rw [hb]
    simp [input_files, hi, hfi]
  · rw [hb]
    simp [mapped_streams, hmap1, hmap2, hfm]
  · rw [hb]
    simp

/-- Witness for `video_only_assembly`: a session with a successful video
worker, both audio workers failed, and a zero-exit encoder. -/
theorem video_only_assembly_witness :
    (process_output cfgBoth stVideoOnly fsVideoOnly runOk).invoked_command =
      some (build_ffmpeg_command cfgBoth false false) ∧
    (process_output cfgBoth stVideoOnly fsVideoOnly runOk).merge_success = true ∧
    build_ffmpeg_command cfgBoth false false =
      [cfgBoth.ffmpeg_path, "-y", "-i", cfgBoth.video_filename_temp, "-filter_complex",
        video_only_filter_expr, "-map", "[v_synced]", "-an", "-c:v", "libx264",
        cfgBoth.output_filename_final] ∧
    input_files (build_ffmpeg_command cfgBoth false false) =
      [cfgBoth.video_filename_temp] ∧
    mapped_streams (build_ffmpeg_command cfgBoth false false) = ["[v_synced]"] ∧
    "-an" ∈ build_ffmpeg_command cfgBoth false false :=
  video_only_assembly cfgBoth stVideoOnly fsVideoOnly runOk ("") rfl rfl rfl
    (by decide) (by decide) (by decide) rfl

end OpencvCapture
